import Mathlib

/-!
Verification development for the sendspin Bluetooth bridge
(src/sendspin_client.py and src/web_interface.py).

The Python source is shallowly embedded: every blocking host command
(bluetoothctl, pactl) is represented by an oracle value describing its
outcome, subprocess and status-dictionary state is made explicit, and the
side effects a routine performs are recorded as an action trace in the
order the source issues them.
-/

set_option maxRecDepth 4000

/-! ## String utilities mirroring Python string operations -/

/-- Membership test for the Python idiom pat in s (substring containment). -/
def listContainsSeq (pat : List Char) : List Char → Bool
  | [] => pat.isEmpty
  | c :: cs => pat.isPrefixOf (c :: cs) || listContainsSeq pat cs

/-- Python substring test: pat in s. -/
def containsSub (s pat : String) : Bool :=
  listContainsSeq pat.data s.data

/-- Python rstrip with argument percent sign: drop all trailing percent characters. -/
def stripPercents (s : String) : String :=
  String.mk ((s.data.reverse.dropWhile (fun c => c == '%')).reverse)

/-- Python strip: drop whitespace from both ends. -/
def pyStrip (s : String) : String :=
  String.mk (((s.data.dropWhile Char.isWhitespace).reverse.dropWhile
    Char.isWhitespace).reverse)

/-- Python lower. -/
def pyLower (s : String) : String :=
  String.mk (s.data.map Char.toLower)

/-- Python startswith. -/
def pyStartsWith (s pre : String) : Bool :=
  pre.data.isPrefixOf s.data

/-- Python int conversion of an all-digit string. -/
def pyToNat (s : String) : Nat :=
  s.data.foldl (fun n c => n * 10 + (c.toNat - 48)) 0

/-- Scanner for the last element of a Python split: walk the text left to
right past non-overlapping separator occurrences, keeping the suffix
after the most recent one; fuel bounds the recursion by the text length. -/
def pyAfterLast (sep : List Char) : Nat → List Char → List Char → List Char
  | _, [], ans => ans
  | 0, _, ans => ans
  | fuel + 1, c :: cs, ans =>
    if sep.isPrefixOf (c :: cs) then
      pyAfterLast sep fuel ((c :: cs).drop sep.length) ((c :: cs).drop sep.length)
    else
      pyAfterLast sep fuel cs ans

/-- Python split(sep) final element: the text after the last
non-overlapping occurrence of sep, or the whole text when sep is absent.
This is also the Python rsplit(sep, 1) final element. -/
def pySplitLast (s sep : String) : String :=
  String.mk (pyAfterLast sep.data (s.data.length + 1) s.data s.data)

/-- Python float conversion succeeds on a token made only of digits and dots
iff the token has at most one dot and at least one digit. -/
def floatOk (s : String) : Bool :=
  (s.data.count '.') ≤ 1 && s.data.any Char.isDigit

/-- Character class of the regex fragment matching digits and dots. -/
def isDigitOrDot (c : Char) : Bool :=
  c.isDigit || c == '.'

/-- Continuation of the sync-error regex after the literal prefix
"Sync error " has matched: one or more digit-or-dot characters, optional
whitespace, then the literal "ms". Greedy matching needs no backtracking
here because a digit-or-dot character can never satisfy the whitespace
class or the following literal. Returns the captured numeric token. -/
def syncErrorAfter (cs : List Char) : Option String :=
  let tok := cs.takeWhile isDigitOrDot
  if tok.isEmpty then none
  else
    let rest := (cs.drop tok.length).dropWhile Char.isWhitespace
    if ("ms".data).isPrefixOf rest then some (String.mk tok) else none

/-- Python re.search for the sync-error pattern: try every start position
from the left, at each one require the literal "Sync error " followed by
syncErrorAfter. -/
def syncErrorSearch : List Char → Option String
  | [] => none
  | c :: cs =>
    match (if ("Sync error ".data).isPrefixOf (c :: cs)
           then syncErrorAfter ((c :: cs).drop 11) else none) with
    | some tok => some tok
    | none => syncErrorSearch cs

/-! ## Host command wrapper (BluetoothManager leaf operations)

run_bluetoothctl models BluetoothManager._run_bluetoothctl: a
subprocess.run call either completes with a return code and stdout, or
raises (covering TimeoutExpired and any other exception), in which case
the except branch returns false together with the exception text. -/

/-- Outcome of one host command invocation: completed with a return code
and captured stdout, or raised an exception (including a timeout). -/
inductive HostOutcome where
  | ok (returncode : Int) (stdout : String)
  | exn (msg : String)
  deriving Repr, DecidableEq

/-- A host command counts as failed when it raised or exited nonzero. -/
def hostFailure : HostOutcome → Bool
  | .ok rc _ => rc != 0
  | .exn _ => true

/-- BluetoothManager._run_bluetoothctl: success is return code zero; any
exception is caught and reported as failure with the message as output. -/
def run_bluetoothctl : HostOutcome → Bool × String
  | .ok rc out => (rc == 0, out)
  | .exn msg => (false, msg)

/-- BluetoothManager.is_device_connected: connected iff the command
succeeded and its output reports Connected yes; every exception path
degrades to false. -/
def is_device_connected (o : HostOutcome) : Bool :=
  (run_bluetoothctl o).1 && containsSub (run_bluetoothctl o).2 "Connected: yes"

/-- BluetoothManager.is_device_paired. -/
def is_device_paired (o : HostOutcome) : Bool :=
  (run_bluetoothctl o).1 && containsSub (run_bluetoothctl o).2 "Paired: yes"

/-- BluetoothManager.check_bluetooth_available: with a configured adapter
it goes through run_bluetoothctl; otherwise it runs bluetoothctl show
directly, treating any raised exception or nonzero exit as unavailable. -/
def check_bluetooth_available (hasAdapter : Bool) (o : HostOutcome) : Bool :=
  if hasAdapter then
    (run_bluetoothctl o).1 && containsSub (run_bluetoothctl o).2 "Controller"
  else
    match o with
    | .ok rc out =>
        rc == 0 &&
          (containsSub (pyLower out) "controller" &&
           !(containsSub (pyLower out) "no default controller"))
    | .exn _ => false

/-! ## Side-effect actions

Act records, in program order, the externally visible requests a routine
issues: bluetoothctl queries and commands, the pairing session, audio sink
configuration, process termination and process launch, and sleeps. -/

/-- One externally visible action issued by the supervisor code. -/
inductive Act where
  | infoQuery        -- bluetoothctl info (connection or pairing state query)
  | terminateProcess -- process.terminate() on the player process
  | pairSeq          -- pair_device: the whole scan, pair, trust session
  | powerOn          -- bluetoothctl power on
  | btConnectCmd     -- bluetoothctl connect
  | configureAudio   -- configure_bluetooth_audio (pactl sink setup)
  | startProcess     -- start_sendspin_process launch (subprocess.Popen)
  | sleep (secs : Nat)
  deriving Repr, DecidableEq

/-! ## BluetoothManager.connect_device -/

/-- Oracle for the host interactions of one connect_device call: the
initial connection check, the pairing state, the pairing result should
pairing run, and the results of the wait-for-connected checks. -/
structure BtEnv where
  connectedNow : Bool   -- result of the initial is_device_connected call
  paired : Bool         -- result of is_device_paired
  pairOk : Bool         -- result of pair_device, if it runs
  checks : Nat → Bool   -- results of the wait-loop is_device_connected calls

/-- Wait loop of connect_device: up to fuel iterations, each sleeping one
second then querying the connection; stops with success at the first
check that reports connected, configuring audio there. -/
def waitConnected (checks : Nat → Bool) : Nat → Nat → Bool × List Act
  | _, 0 => (false, [])
  | i, fuel + 1 =>
    if checks i then (true, [Act.sleep 1, Act.infoQuery, Act.configureAudio])
    else
      let r := waitConnected checks (i + 1) fuel
      (r.1, [Act.sleep 1, Act.infoQuery] ++ r.2)

/-- BluetoothManager.connect_device. If already connected: configure audio
and return success at once. Otherwise pair first when not yet paired
(returning failure if pairing fails), then power on, sleep, issue the
connect command, and run the five-step wait loop. -/
def connect_device (env : BtEnv) : Bool × List Act :=
  if env.connectedNow then
    (true, [Act.infoQuery, Act.configureAudio])
  else
    if !env.paired && !env.pairOk then
      (false, [Act.infoQuery, Act.infoQuery, Act.pairSeq])
    else
      let pairTrace := if env.paired then [Act.infoQuery] else [Act.infoQuery, Act.pairSeq]
      let w := waitConnected env.checks 0 5
      (w.1, [Act.infoQuery] ++ pairTrace ++ [Act.powerOn, Act.sleep 1, Act.btConnectCmd] ++ w.2)

/-! ## Shared status dictionary (the per-client status dict) -/

/-- The per-client status dictionary fields the verified routines touch. -/
structure Status where
  playing : Bool
  state_changed_at : Option Nat
  audio_format : Option String
  reanchor_count : Nat
  last_sync_error_ms : Option String
  reanchoring : Bool
  server_connected : Bool
  server_connected_at : Option Nat
  volume : Int
  reconnecting : Bool
  reconnect_attempt : Nat
  deriving Repr, DecidableEq

/-- Status dictionary as initialised in SendspinClient (the fields
modelled here). -/
def initialStatus : Status :=
  { playing := false
    state_changed_at := none
    audio_format := none
    reanchor_count := 0
    last_sync_error_ms := none
    reanchoring := false
    server_connected := false
    server_connected_at := none
    volume := 100
    reconnecting := false
    reconnect_attempt := 0 }

/-! ## BluetoothManager.monitor_and_reconnect, one loop iteration

The loop body is gated on management_enabled and on ten seconds having
elapsed since the last check (due). On a disconnected observation it
increments the local reconnect counter, mirrors it into the client status
when a client is attached, terminates the player process when one is
alive, then calls connect_device; on success with a client attached it
resets the counter and starts a fresh player process. On a connected
observation it clears reconnect state and resets the local counter. -/

/-- One iteration of monitor_and_reconnect. Returns the new local
reconnect_attempt counter, the updated client status, and the action
trace in program order. -/
def monitorPoll (mgmtEnabled due hasClient processAlive connected : Bool)
    (env : BtEnv) (ra : Nat) (st : Status) : Nat × Status × List Act :=
  if !mgmtEnabled then (ra, st, [])
  else if !due then (ra, st, [])
  else
    if connected then
      let st := if hasClient && st.reconnecting then
                  { st with reconnecting := false, reconnect_attempt := 0 }
                else st
      (0, st, [Act.infoQuery])
    else
      let ra1 := ra + 1
      let st := if hasClient then
                  { st with reconnecting := true, reconnect_attempt := ra1 }
                else st
      let killTrace := if hasClient && processAlive then [Act.terminateProcess] else []
      let res := connect_device env
      if res.1 && hasClient then
        (0, { st with reconnecting := false, reconnect_attempt := 0 },
         [Act.infoQuery] ++ killTrace ++ res.2 ++ [Act.startProcess])
      else
        (ra1, st, [Act.infoQuery] ++ killTrace ++ res.2)

/-! ## SendspinClient process lifecycle (run startup, crash restart) -/

/-- The client-level state relevant to the process lifecycle routines. -/
structure ClientState where
  btManagementEnabled : Bool
  hasBtManager : Bool
  btConnected : Bool      -- bt_manager.connected cached flag
  processRunning : Bool   -- player subprocess spawned and alive
  sinkConfigured : Bool   -- bluetooth_sink_name is set
  deriving Repr, DecidableEq

/-- SendspinClient.start_sendspin_process: configure the audio sink first
when Bluetooth is connected but no sink is recorded yet, terminate a
still-alive previous process instance, then launch the player. There is
no Bluetooth connectivity gate in this routine. -/
def start_sendspin_process (s : ClientState) : ClientState × List Act :=
  let preAudio := s.hasBtManager && s.btConnected && !s.sinkConfigured
  let killTrace := if s.processRunning then [Act.terminateProcess] else []
  ({ s with processRunning := true, sinkConfigured := s.sinkConfigured || preAudio },
   (if preAudio then [Act.configureAudio] else []) ++ killTrace ++ [Act.startProcess])

/-- SendspinClient.run, startup step: when Bluetooth management is
enabled the player process is started immediately, before any Bluetooth
connection is attempted (the source starts the player first and connects
Bluetooth in a background task two seconds later). -/
def run_startup (s : ClientState) : ClientState :=
  if s.btManagementEnabled then (start_sendspin_process s).1 else s

/-- SendspinClient.update_status, crash-restart step: when the process is
observed to have exited, it is restarted only when there is no Bluetooth
manager or the cached Bluetooth state is connected; otherwise the restart
is deferred to the reconnect path. -/
def update_status_step (processExited : Bool) (s : ClientState) : ClientState :=
  if processExited then
    if !s.hasBtManager || s.btConnected then
      (start_sendspin_process { s with processRunning := false }).1
    else
      { s with processRunning := false }
  else s

/-! ## Output consumer (SendspinClient.monitor_output)

The consumer holds the per-line parsing of the process output stream. The
module-level audio-format cache keyed by player name is threaded
explicitly. The regex matching the server URL is embedded including its
backtracking behaviour on the host character class. -/

/-- Lookup in the module-level audio format cache (a Python dict keyed by
player name, modelled as an association list with newest binding first). -/
def lookupCache (cache : List (String × String)) (k : String) : Option String :=
  (cache.find? (fun p => p.1 == k)).map Prod.snd

/-- Dict update for the audio format cache. -/
def insertCache (cache : List (String × String)) (k v : String) : List (String × String) :=
  (k, v) :: cache.filter (fun p => p.1 != k)

/-- Backtracking over the host length for the URL regex: the host class
excludes whitespace and slash but includes colons, so the engine takes
the longest host for which the remainder matches colon, digits, slash.
The digit run needs no further backtracking because giving back a digit
leaves a digit where the slash is required. rest is the text after the
scheme; k plus one is the candidate host length. -/
def wsHostBacktrack (rest : List Char) : Nat → Option (List Char)
  | 0 => none
  | k + 1 =>
    match rest.drop (k + 1) with
    | ':' :: r3 =>
      let digits := r3.takeWhile Char.isDigit
      if digits.isEmpty then wsHostBacktrack rest k
      else
        match r3.drop digits.length with
        | '/' :: r4 =>
          some (("ws://".data) ++ rest.take (k + 1) ++ [':'] ++ digits ++ ['/'] ++
                r4.takeWhile (fun c => !c.isWhitespace))
        | _ => wsHostBacktrack rest k
    | _ => wsHostBacktrack rest k

/-- Attempt to match the URL regex at the start of cs. -/
def wsUrlAt (cs : List Char) : Option (List Char) :=
  if ("ws://".data).isPrefixOf cs then
    let rest := cs.drop 5
    let hostRun := rest.takeWhile (fun c => !c.isWhitespace && c != '/')
    wsHostBacktrack rest hostRun.length
  else none

/-- Python re.search for the URL pattern: first start position at which
the pattern matches. -/
def wsUrlSearch : List Char → Option String
  | [] => none
  | c :: cs =>
    match wsUrlAt (c :: cs) with
    | some m => some (String.mk m)
    | none => wsUrlSearch cs

/-- First parsing block of the output loop: playback start and stop
lines. A start line sets playing and, when it is a codec announcement,
fills the audio format from the cached full format string when that
cache entry extends the codec name. -/
def playingBlock (playerName : String) (cache : List (String × String)) (now : Nat)
    (l : String) (st : Status) : Status :=
  if containsSub l "Stream STARTED" || containsSub l "Stream started with codec" then
    let st := { st with playing := true, state_changed_at := some now }
    if containsSub l "Stream started with codec" then
      let codec := pyStrip (pySplitLast l "Stream started with codec")
      if codec != "" then
        let cached := (lookupCache cache playerName).getD ""
        if cached != "" && pyStartsWith cached codec then
          { st with audio_format := some cached }
        else
          { st with audio_format := some codec }
      else st
    else st
  else if containsSub l "Stream STOPPED" || containsSub l "MPRIS interface stopped" then
    { st with playing := false, state_changed_at := some now }
  else st

/-- Audio format block: record the full format string, cache it when
nonempty, and write the format into the status even when empty (the
source assigns outside the emptiness guard). -/
def formatBlock (playerName : String) (l : String) (st : Status)
    (cache : List (String × String)) : Status × List (String × String) :=
  if containsSub l "Audio format:" then
    let fmt := pyStrip (pySplitLast l "Audio format:")
    let cache2 := if fmt != "" then insertCache cache playerName fmt else cache
    ({ st with audio_format := some fmt }, cache2)
  else (st, cache)

/-- Re-anchor block. On a line containing the re-anchor markers the
source wraps the whole update in one try block: if the sync-error regex
matched but the float conversion of the captured token raises, the
counter increment and the flag set are skipped along with the value
store. The flag is cleared only on lines containing the uppercase
Stream STARTED marker, and only via the elif, so never on a line that is
itself a re-anchor line. -/
def reanchorBlock (l : String) (st : Status) : Status :=
  if containsSub l "re-anchoring" || containsSub l "re-anchor" then
    match syncErrorSearch l.data with
    | some tok =>
      if floatOk tok then
        { st with last_sync_error_ms := some tok,
                  reanchor_count := st.reanchor_count + 1,
                  reanchoring := true }
      else st
    | none =>
      { st with reanchor_count := st.reanchor_count + 1, reanchoring := true }
  else if containsSub l "Stream STARTED" then
    { st with reanchoring := false }
  else st

/-- Server connection block. -/
def serverBlock (now : Nat) (l : String) (st : Status) : Status :=
  if containsSub l "Server connected" || containsSub l "Handshake with server complete" then
    let st := if st.server_connected_at.isNone then
                { st with server_connected_at := some now }
              else st
    { st with server_connected := true }
  else st

/-- Server URL capture block: only fires while the recorded URL is still
empty. -/
def urlBlock (l : String) (url : String) : String :=
  if url == "" then
    match wsUrlSearch l.data with
    | some u => u
    | none => url
  else url

/-- Volume sync block: fires only when a Bluetooth sink name is recorded;
takes the text after the last colon, strips whitespace and trailing
percent signs, and on an all-digit token writes the volume into the
status. The pactl call and the config save that follow in the source do
not affect the status fields and are external side effects. -/
def volumeBlock (sinkName : Option String) (l : String) (st : Status) : Status :=
  if (containsSub l "Volume:" || containsSub (pyLower l) "player volume:")
      && sinkName.isSome then
    let volumePart := stripPercents (pyStrip (pySplitLast l ":"))
    if volumePart != "" && volumePart.data.all Char.isDigit then
      { st with volume := (pyToNat volumePart : Int) }
    else st
  else st

/-- State threaded through the output consumer: the status dictionary,
the module-level audio format cache, and the captured server URL. -/
structure MOState where
  status : Status
  cache : List (String × String)
  connected_server_url : String
  deriving Repr, DecidableEq

/-- One iteration of the read loop body on one raw output line, in the
order the source executes the parsing blocks. -/
def processLine (playerName : String) (sinkName : Option String) (now : Nat)
    (ms : MOState) (raw : String) : MOState :=
  let l := pyStrip raw
  let st1 := playingBlock playerName ms.cache now l ms.status
  let fc := formatBlock playerName l st1 ms.cache
  let st3 := reanchorBlock l fc.1
  let st4 := serverBlock now l st3
  let url := urlBlock l ms.connected_server_url
  let st5 := volumeBlock sinkName l st4
  { status := st5, cache := fc.2, connected_server_url := url }

/-- The read_until_eof worker body: consumes the whole line stream of one
process instance inside a single function. The running flag is checked
per line in the source, but it only transitions once at shutdown, so it
is modelled as constant over one read. -/
def read_until_eof (running : Bool) (playerName : String) (sinkName : Option String)
    (now : Nat) (ms : MOState) (lines : List String) : MOState :=
  if running then lines.foldl (processLine playerName sinkName now) ms else ms

/-- SendspinClient.monitor_output: returns early when no process exists;
otherwise it awaits exactly one executor submission whose body is
read_until_eof over the entire output stream. The second component
counts the worker-pool submissions the call makes. -/
def monitor_output (hasProcess running : Bool) (playerName : String)
    (sinkName : Option String) (now : Nat) (ms : MOState) (lines : List String) :
    MOState × Nat :=
  if hasProcess then
    (read_until_eof running playerName sinkName now ms lines, 1)
  else (ms, 0)

/-! ## Dashboard volume persistence (web_interface.set_volume and the
restore path in BluetoothManager.configure_bluetooth_audio) -/

/-- Persisted configuration: the per-device LAST_VOLUMES map keyed by MAC
address plus the legacy single LAST_VOLUME value used as fallback. -/
structure Cfg where
  lastVolumes : List (String × Int)
  lastVolumeLegacy : Option Int
  deriving Repr, DecidableEq

/-- Read LAST_VOLUMES at a MAC address. -/
def lookupVolume (cfg : Cfg) (mac : String) : Option Int :=
  (cfg.lastVolumes.find? (fun p => p.1 == mac)).map Prod.snd

/-- Write LAST_VOLUMES at a MAC address (dict update). -/
def saveVolume (cfg : Cfg) (mac : String) (v : Int) : Cfg :=
  { cfg with lastVolumes := (mac, v) :: cfg.lastVolumes.filter (fun p => p.1 != mac) }

/-- The clamp applied by the volume endpoint to the requested value. -/
def clampVolume (v : Int) : Int := max 0 (min 100 v)

/-- The client fields the volume endpoint reads and writes. -/
structure WebClient where
  player_name : String
  bluetooth_sink_name : Option String
  mac_address : Option String   -- bt_manager MAC when a manager exists
  status : Status
  deriving Repr, DecidableEq

/-- Per-target body of web_interface.set_volume with the clamped volume
w: skipped entirely without a recorded sink; on pactl success the status
volume is set and, when the client has a MAC and the config file exists,
the volume is persisted under that MAC. The third component is the
result entry appended for this client (none when skipped). -/
def set_volume_apply (pactlOk configExists : Bool) (cfg : Cfg) (c : WebClient)
    (w : Int) : WebClient × Cfg × Option Bool :=
  match c.bluetooth_sink_name with
  | none => (c, cfg, none)
  | some _ =>
    if pactlOk then
      let c2 := { c with status := { c.status with volume := w } }
      let cfg2 :=
        match c2.mac_address with
        | some mac => if configExists then saveVolume cfg mac w else cfg
        | none => cfg
      (c2, cfg2, some true)
    else (c, cfg, some false)

/-- Volume restore step inside configure_bluetooth_audio: when the config
file exists, read LAST_VOLUMES at this MAC with the legacy value as
fallback; an integer in range is pushed to the sink and, when that pactl
call succeeds, written into the status. -/
def restore_volume (restoreOk configExists : Bool) (cfg : Cfg) (mac : String)
    (st : Status) : Status :=
  if configExists then
    let lv := match lookupVolume cfg mac with
              | some v => some v
              | none => cfg.lastVolumeLegacy
    match lv with
    | some v =>
      if 0 ≤ v ∧ v ≤ 100 then (if restoreOk then { st with volume := v } else st)
      else st
    | none => st
  else st

/-! ## Dashboard Bluetooth command endpoints (web_interface) -/

/-- The client fields the Bluetooth command endpoints inspect. -/
structure WClient where
  player_name : String
  hasBtManager : Bool
  deriving Repr, DecidableEq

/-- Shared target selection of the Bluetooth endpoints: first client whose
player name equals the request value, else the first configured client.
A missing request value is modelled as none and matches no client. -/
def selectClient (q : Option String) (cs : List WClient) : Option WClient :=
  match cs.find? (fun c => q == some c.player_name) with
  | some c => some c
  | none => cs.head?

/-- Outcome of a Bluetooth command endpoint. -/
inductive ApiResult where
  | ok               -- success response, command dispatched
  | errNoBtManager   -- 503, no BT manager for this player (or no client)
  | errNoClient      -- 503, no client found
  | errMissingField  -- 400, missing enabled field
  deriving Repr, DecidableEq

/-- web_interface.api_bt_reconnect: reject only when no client was
selected at all or the selected client has no Bluetooth manager. -/
def api_bt_reconnect (q : Option String) (cs : List WClient) : ApiResult :=
  match selectClient q cs with
  | none => ApiResult.errNoBtManager
  | some c => if c.hasBtManager then ApiResult.ok else ApiResult.errNoBtManager

/-- web_interface.api_bt_pair: same selection and rejection logic as the
reconnect endpoint. -/
def api_bt_pair (q : Option String) (cs : List WClient) : ApiResult :=
  match selectClient q cs with
  | none => ApiResult.errNoBtManager
  | some c => if c.hasBtManager then ApiResult.ok else ApiResult.errNoBtManager

/-- web_interface.api_bt_management: 400 when the enabled field is
missing; otherwise the command is dispatched to the selected client and
fails only when no client exists. -/
def api_bt_management (q : Option String) (enabled : Option Bool)
    (cs : List WClient) : ApiResult :=
  match enabled with
  | none => ApiResult.errMissingField
  | some _ =>
    match selectClient q cs with
    | none => ApiResult.errNoClient
    | some _ => ApiResult.ok

/-! ## Helper lemmas -/

/-- The wait loop succeeds iff one of its fuel many checks, counted from
the start index, reports connected. -/
theorem waitConnected_true_iff (checks : Nat → Bool) :
    ∀ fuel i, (waitConnected checks i fuel).1 = true ↔
      ∃ k, k < fuel ∧ checks (i + k) = true := by
  intro fuel
  induction fuel with
  | zero =>
    intro i
    simp [waitConnected]
  | succ n ih =>
    intro i
    constructor
    · intro hw
      by_cases h : checks i = true
      · exact ⟨0, Nat.succ_pos n, by simpa using h⟩
      · have hb : checks i = false := by simpa using h
        have hw2 : (waitConnected checks (i + 1) n).1 = true := by
          simpa [waitConnected, hb] using hw
        obtain ⟨k, hk, hck⟩ := (ih (i + 1)).1 hw2
        exact ⟨k + 1, by omega, by
          have : i + (k + 1) = i + 1 + k := by omega
          rw [this]; exact hck⟩
    · rintro ⟨k, hk, hck⟩
      by_cases h : checks i = true
      · simp [waitConnected, h]
      · have hb : checks i = false := by simpa using h
        match k, hk, hck with
        | 0, hk, hck =>
          exact absurd (by simpa using hck) h
        | k + 1, hk, hck =>
          have hstep : (waitConnected checks (i + 1) n).1 = true := by
            apply (ih (i + 1)).2
            exact ⟨k, by omega, by
              have : i + 1 + k = i + (k + 1) := by omega
              rw [this]; exact hck⟩
          simpa [waitConnected, hb] using hstep

/-- The wait loop never launches a process. -/
theorem waitConnected_no_start (checks : Nat → Bool) :
    ∀ fuel i, Act.startProcess ∉ (waitConnected checks i fuel).2 := by
  intro fuel
  induction fuel with
  | zero => intro i; simp [waitConnected]
  | succ n ih =>
    intro i
    by_cases h : checks i = true
    · simp [waitConnected, h]
    · have hb : checks i = false := by simpa using h
      simp [waitConnected, hb, ih]

/-- connect_device never launches a process itself. -/
theorem connect_device_no_start (env : BtEnv) :
    Act.startProcess ∉ (connect_device env).2 := by
  unfold connect_device
  split
  · simp
  · split
    · simp
    · split <;> simp [waitConnected_no_start]

/-- When the wait loop first succeeds at index k, it has run exactly k
failing checks and one succeeding one, so its trace holds two entries per
failed check plus the three of the succeeding one. -/
theorem waitConnected_first_success (checks : Nat → Bool) :
    ∀ fuel i k, k < fuel → checks (i + k) = true →
      (∀ j, j < k → checks (i + j) = false) →
      (waitConnected checks i fuel).2.length = 2 * k + 3 := by
  intro fuel
  induction fuel with
  | zero => intro i k hk _ _; omega
  | succ n ih =>
    intro i k hk hc hprev
    match k with
    | 0 =>
      have h0 : checks i = true := by simpa using hc
      simp [waitConnected, h0]
    | k + 1 =>
      have h0 : checks i = false := by simpa using hprev 0 (by omega)
      have hrec := ih (i + 1) k (by omega)
        (by have : i + 1 + k = i + (k + 1) := by omega
            rw [this]; exact hc)
        (fun j hj => by
          have : i + 1 + j = i + (j + 1) := by omega
          rw [this]; exact hprev (j + 1) (by omega))
      simp only [waitConnected, h0, Bool.false_eq_true, if_false]
      simp [hrec]
      omega

/-! ## Claim C4 -/

/-- Claim C4: calling connect_device when the device is already connected
returns success immediately and performs no reconnect or pairing side
effects: the trace holds only the connectivity query and the audio sink
configuration, with no pairing sequence, no power-on and no bluetoothctl
connect command. -/
theorem connect_already_connected_idempotent (env : BtEnv)
    (h : env.connectedNow = true) :
    (connect_device env).1 = true
  ∧ Act.pairSeq ∉ (connect_device env).2
  ∧ Act.btConnectCmd ∉ (connect_device env).2
  ∧ Act.powerOn ∉ (connect_device env).2
  ∧ (connect_device env).2 = [Act.infoQuery, Act.configureAudio] := by
  simp [connect_device, h]

/-- Concrete environment in which the device is already connected. -/
def envAlready : BtEnv :=
  { connectedNow := true, paired := false, pairOk := false, checks := fun _ => false }

/-- Witness for claim C4 at a concrete already-connected environment. -/
theorem connect_already_connected_idempotent_witness :
    envAlready.connectedNow = true ∧
    ((connect_device envAlready).1 = true
     ∧ Act.pairSeq ∉ (connect_device envAlready).2
     ∧ Act.btConnectCmd ∉ (connect_device envAlready).2
     ∧ Act.powerOn ∉ (connect_device envAlready).2
     ∧ (connect_device envAlready).2 = [Act.infoQuery, Act.configureAudio]) :=
  ⟨rfl, connect_already_connected_idempotent envAlready rfl⟩

/-! ## Claim C7 -/

/-- Claim C7: every failed host command outcome, whether a raised
exception (including a timeout) or a nonzero exit status, yields failure
from the command wrapper and a negative answer from the availability,
paired and connected queries. All four operations are total functions of
the outcome, so no exception propagates to the caller. -/
theorem host_failure_nonfatal (o : HostOutcome) (h : hostFailure o = true) :
    (run_bluetoothctl o).1 = false
  ∧ is_device_connected o = false
  ∧ is_device_paired o = false
  ∧ (∀ a, check_bluetooth_available a o = false) := by
  cases o with
  | ok rc out =>
    have hz : (rc == 0) = false := by
      simpa [hostFailure] using h
    refine ⟨by simp [run_bluetoothctl, hz], ?_, ?_, ?_⟩
    · simp [is_device_connected, run_bluetoothctl, hz]
    · simp [is_device_paired, run_bluetoothctl, hz]
    · intro a
      cases a <;> simp [check_bluetooth_available, run_bluetoothctl, hz]
  | exn m =>
    refine ⟨rfl, by simp [is_device_connected, run_bluetoothctl], ?_, ?_⟩
    · simp [is_device_paired, run_bluetoothctl]
    · intro a
      cases a <;> simp [check_bluetooth_available, run_bluetoothctl]

/-- Witness for claim C7 at a concrete timed-out command. -/
theorem host_failure_nonfatal_witness :
    hostFailure (HostOutcome.exn "bluetoothctl timed out") = true ∧
    ((run_bluetoothctl (HostOutcome.exn "bluetoothctl timed out")).1 = false
     ∧ is_device_connected (HostOutcome.exn "bluetoothctl timed out") = false
     ∧ is_device_paired (HostOutcome.exn "bluetoothctl timed out") = false
     ∧ (∀ a, check_bluetooth_available a (HostOutcome.exn "bluetoothctl timed out") = false)) :=
  ⟨rfl, host_failure_nonfatal (HostOutcome.exn "bluetoothctl timed out") rfl⟩

/-! ## Claim C3 -/

/-- Initial consumer state: fresh status, empty format cache, no captured
server URL. -/
def initialMOState : MOState :=
  { status := initialStatus, cache := [], connected_server_url := "" }

/-- Claim C3: with a live process, monitor_output makes exactly one
worker-pool submission whose body is the read_until_eof loop over the
whole output stream, processing it line by line in order; the submission
count is one for every stream, in particular strictly below the line
count for any stream of at least two lines (never one slot per line). -/
theorem monitor_output_single_worker (running : Bool) (playerName : String)
    (sinkName : Option String) (now : Nat) (ms : MOState) (lines : List String) :
    (monitor_output true running playerName sinkName now ms lines).2 = 1
  ∧ (monitor_output true running playerName sinkName now ms lines).1 =
      read_until_eof running playerName sinkName now ms lines
  ∧ (2 ≤ lines.length →
      (monitor_output true running playerName sinkName now ms lines).2 < lines.length)
  ∧ (running = true →
      (monitor_output true running playerName sinkName now ms lines).1 =
        lines.foldl (processLine playerName sinkName now) ms) := by
  refine ⟨by simp [monitor_output], by simp [monitor_output], ?_, ?_⟩
  · intro h
    simp only [monitor_output, if_true]
    omega
  · intro h
    simp [monitor_output, read_until_eof, h]

/-- Witness for claim C3 on a concrete three-line burst. -/
theorem monitor_output_single_worker_witness :
    2 ≤ (["e1", "e2", "e3"] : List String).length ∧
    (monitor_output true true "P" none 0 initialMOState ["e1", "e2", "e3"]).2 <
      (["e1", "e2", "e3"] : List String).length :=
  ⟨by decide,
   (monitor_output_single_worker true "P" none 0 initialMOState
      ["e1", "e2", "e3"]).2.2.1 (by decide)⟩

/-! ## Claim C2 -/

/-- Claim C2: on an enabled, due poll that observes the device
disconnected while a client with a live player process is attached, the
iteration issues the process termination request strictly before the
reconnect attempt: the trace is the connectivity query, then the
termination, then the whole connect_device trace, then whatever follows. -/
theorem monitor_kill_before_reconnect (hasClient processAlive : Bool)
    (env : BtEnv) (ra : Nat) (st : Status)
    (hc : hasClient = true) (hp : processAlive = true) :
    ∃ post, (monitorPoll true true hasClient processAlive false env ra st).2.2 =
      [Act.infoQuery, Act.terminateProcess] ++ (connect_device env).2 ++ post := by
  subst hc hp
  cases hres : (connect_device env) with
  | mk ok tr =>
    cases ok with
    | false =>
      refine ⟨[], ?_⟩
      simp [monitorPoll, hres]
    | true =>
      refine ⟨[Act.startProcess], ?_⟩
      simp [monitorPoll, hres]

/-- Concrete environment for the C2 witness: device paired, all reconnect
checks fail. -/
def envKill : BtEnv :=
  { connectedNow := false, paired := true, pairOk := false, checks := fun _ => false }

/-- Witness for claim C2 at a concrete disconnected poll. -/
theorem monitor_kill_before_reconnect_witness :
    ∃ post, (monitorPoll true true true true false envKill 3 initialStatus).2.2 =
      [Act.infoQuery, Act.terminateProcess] ++ (connect_device envKill).2 ++ post :=
  monitor_kill_before_reconnect true true envKill 3 initialStatus rfl rfl

/-! ## Claim C5 -/

/-- Claim C5: behaviour of the local reconnect_attempt counter of
monitor_and_reconnect across one loop iteration. A skipped iteration
(management disabled or not yet due) leaves the counter unchanged; a
connected observation resets it to exactly zero; a disconnected
observation whose reconnect fails increments it by exactly one (so it
never decreases while the device stays disconnected); a successful
reconnect with a client attached resets it to zero; and on the first
connected observation after reconnect attempts the mirrored status
counter is also reset with the reconnecting flag cleared. -/
theorem reconnect_attempt_behaviour (mgmt due hasClient processAlive connected : Bool)
    (env : BtEnv) (ra : Nat) (st : Status) :
    ((mgmt = false ∨ due = false) →
       (monitorPoll mgmt due hasClient processAlive connected env ra st).1 = ra)
  ∧ (mgmt = true → due = true → connected = true →
       (monitorPoll mgmt due hasClient processAlive connected env ra st).1 = 0)
  ∧ (mgmt = true → due = true → connected = false → (connect_device env).1 = false →
       (monitorPoll mgmt due hasClient processAlive connected env ra st).1 = ra + 1
       ∧ ra ≤ (monitorPoll mgmt due hasClient processAlive connected env ra st).1)
  ∧ (mgmt = true → due = true → connected = false → (connect_device env).1 = true →
       hasClient = true →
       (monitorPoll mgmt due hasClient processAlive connected env ra st).1 = 0)
  ∧ (mgmt = true → due = true → connected = true → hasClient = true →
       st.reconnecting = true →
       (monitorPoll mgmt due hasClient processAlive connected env ra st).2.1.reconnect_attempt = 0
       ∧ (monitorPoll mgmt due hasClient processAlive connected env ra st).2.1.reconnecting = false) := by
  refine ⟨?_, ?_, ?_, ?_, ?_⟩
  · rintro (h | h) <;> subst h <;> simp [monitorPoll]
  · intro h1 h2 h3
    subst h1; subst h2; subst h3
    simp [monitorPoll]
  · intro h1 h2 h3 h4
    subst h1; subst h2; subst h3
    cases hres : (connect_device env) with
    | mk ok tr =>
      rw [hres] at h4
      simp at h4
      subst h4
      constructor
      · simp [monitorPoll, hres]
      · simp [monitorPoll, hres]
  · intro h1 h2 h3 h4 h5
    subst h1; subst h2; subst h3; subst h5
    cases hres : (connect_device env) with
    | mk ok tr =>
      rw [hres] at h4
      simp at h4
      subst h4
      simp [monitorPoll, hres]
  · intro h1 h2 h3 h4 h5
    subst h1; subst h2; subst h3; subst h4
    simp [monitorPoll, h5]

/-- Concrete environment for the C5 witness: reconnect fails every check. -/
def envStayDown : BtEnv :=
  { connectedNow := false, paired := true, pairOk := false, checks := fun _ => false }

/-- Witness for claim C5: a failing reconnect on a disconnected poll
increments the counter from seven to eight. -/
theorem reconnect_attempt_behaviour_witness :
    (monitorPoll true true true true false envStayDown 7 initialStatus).1 = 7 + 1
    ∧ 7 ≤ (monitorPoll true true true true false envStayDown 7 initialStatus).1 :=
  (reconnect_attempt_behaviour true true true true false envStayDown 7
     initialStatus).2.2.1 rfl rfl rfl (by decide)

/-! ## Claim C1 -/

/-- Startup state of a freshly configured Bluetooth-managed device whose
speaker is not yet connected. -/
def disconnectedStart : ClientState :=
  { btManagementEnabled := true, hasBtManager := true, btConnected := false,
    processRunning := false, sinkConfigured := false }

/-- Claim C1 counterexample: the startup path of SendspinClient.run
launches the player process while the Bluetooth device is disconnected,
so the process enters its running state at a moment when Bluetooth is
not connected, and the invariant that the process is never running while
Bluetooth is disconnected fails on the very first step. -/
theorem running_while_disconnected_at_startup :
    disconnectedStart.btConnected = false
  ∧ (run_startup disconnectedStart).processRunning = true
  ∧ (run_startup disconnectedStart).btConnected = false := by
  decide

/-- The wait loop never runs the pairing sequence. -/
theorem waitConnected_no_pair (checks : Nat → Bool) :
    ∀ fuel i, Act.pairSeq ∉ (waitConnected checks i fuel).2 := by
  intro fuel
  induction fuel with
  | zero => intro i; simp [waitConnected]
  | succ n ih =>
    intro i
    by_cases h : checks i = true
    · simp [waitConnected, h]
    · have hb : checks i = false := by simpa using h
      simp [waitConnected, hb, ih]

/-- One monitor iteration launches a process exactly when it is an
enabled, due poll that observed the device disconnected, the
connect_device call succeeded, and a client is attached. -/
theorem monitorPoll_start_iff (mgmt due hasClient processAlive connected : Bool)
    (env : BtEnv) (ra : Nat) (st : Status) :
    Act.startProcess ∈ (monitorPoll mgmt due hasClient processAlive connected env ra st).2.2 ↔
      (mgmt = true ∧ due = true ∧ connected = false ∧
       (connect_device env).1 = true ∧ hasClient = true) := by
  cases hres : connect_device env with
  | mk ok tr =>
    have hnost : Act.startProcess ∉ tr := by
      have h := connect_device_no_start env
      rw [hres] at h
      exact h
    cases mgmt <;> cases due <;> cases connected <;> cases hasClient <;>
      cases processAlive <;> cases ok <;>
      simp [monitorPoll, hres, hnost]

/-- Claim C1 amended: after the unconditional startup launch, entries
into the running state are gated on Bluetooth. The monitor loop launches
the process only on a successful reconnect (monitorPoll_start_iff in
conjunct one), the crash-restart path relaunches only when no Bluetooth
manager exists or the cached Bluetooth state is connected (conjunct
two), while the startup path itself launches whenever management is
enabled, regardless of Bluetooth state (conjunct three). -/
theorem running_entry_gated (mgmt due hasClient processAlive connected : Bool)
    (env : BtEnv) (ra : Nat) (st : Status) (pe : Bool) (s : ClientState) :
    (Act.startProcess ∈ (monitorPoll mgmt due hasClient processAlive connected env ra st).2.2 →
       (connect_device env).1 = true ∧ connected = false ∧ hasClient = true)
  ∧ (pe = true → (update_status_step pe s).processRunning = true →
       s.hasBtManager = false ∨ s.btConnected = true)
  ∧ (s.btManagementEnabled = true → (run_startup s).processRunning = true) := by
  refine ⟨?_, ?_, ?_⟩
  · intro hmem
    have h := (monitorPoll_start_iff mgmt due hasClient processAlive connected
                 env ra st).1 hmem
    exact ⟨h.2.2.2.1, h.2.2.1, h.2.2.2.2⟩
  · intro hpe
    subst hpe
    cases hhb : s.hasBtManager <;> cases hbc : s.btConnected <;>
      simp [update_status_step, start_sendspin_process, hhb, hbc]
  · intro h
    simp [run_startup, h, start_sendspin_process]

/-- Concrete environment for the C1 witness: the reconnect succeeds at
once because the device reports connected again. -/
def envBackUp : BtEnv :=
  { connectedNow := true, paired := true, pairOk := false, checks := fun _ => false }

/-- Restart state for the C1 witness: Bluetooth connected, process died. -/
def connectedCrash : ClientState :=
  { btManagementEnabled := true, hasBtManager := true, btConnected := true,
    processRunning := false, sinkConfigured := true }

/-- Witness for the amended claim C1, discharging the hypotheses of all
three conjuncts at concrete inputs. -/
theorem running_entry_gated_witness :
    ((connect_device envBackUp).1 = true ∧ false = false ∧ true = true)
  ∧ (connectedCrash.hasBtManager = false ∨ connectedCrash.btConnected = true)
  ∧ (run_startup connectedCrash).processRunning = true :=
  ⟨(running_entry_gated true true true true false envBackUp 0 initialStatus
      true connectedCrash).1 (by decide),
   (running_entry_gated true true true true false envBackUp 0 initialStatus
      true connectedCrash).2.1 rfl (by decide),
   (running_entry_gated true true true true false envBackUp 0 initialStatus
      true connectedCrash).2.2 rfl⟩

/-! ## Claim C6 -/

/-- Claim C6: connect_device runs the pairing sequence first exactly when
the device is neither connected nor paired (failing outright when that
pairing fails, before any connect command); after issuing the connect
command it polls the connected state up to five times at one-second
intervals, succeeding iff the device was already connected or some of
the five checks reports connected, and stopping at the first successful
check (two trace entries per failed check, three for the success). -/
theorem connect_device_pair_then_retry (env : BtEnv) :
    ((connect_device env).1 = true ↔
       (env.connectedNow = true ∨
         ((env.paired = true ∨ env.pairOk = true) ∧ ∃ k, k < 5 ∧ env.checks k = true)))
  ∧ (env.connectedNow = false → env.paired = false → env.pairOk = true →
       connect_device env =
         ((waitConnected env.checks 0 5).1,
          [Act.infoQuery, Act.infoQuery, Act.pairSeq, Act.powerOn, Act.sleep 1,
           Act.btConnectCmd] ++ (waitConnected env.checks 0 5).2))
  ∧ (env.connectedNow = false → env.paired = false → env.pairOk = false →
       (connect_device env).1 = false ∧ Act.btConnectCmd ∉ (connect_device env).2)
  ∧ (env.connectedNow = false → env.paired = true →
       Act.pairSeq ∉ (connect_device env).2)
  ∧ (∀ k, k < 5 → env.checks k = true → (∀ j, j < k → env.checks j = false) →
       (waitConnected env.checks 0 5).2.length = 2 * k + 3) := by
  refine ⟨?_, ?_, ?_, ?_, ?_⟩
  · by_cases h1 : env.connectedNow = true
    · simp [connect_device, h1]
    · have h1b : env.connectedNow = false := by simpa using h1
      by_cases hp : env.paired = true
      · simp [connect_device, h1b, hp, waitConnected_true_iff]
      · have hpb : env.paired = false := by simpa using hp
        by_cases hq : env.pairOk = true
        · simp [connect_device, h1b, hpb, hq, waitConnected_true_iff]
        · have hqb : env.pairOk = false := by simpa using hq
          simp [connect_device, h1b, hpb, hqb]
  · intro h1 h2 h3
    simp [connect_device, h1, h2, h3]
  · intro h1 h2 h3
    simp [connect_device, h1, h2, h3]
  · intro h1 h2
    simp [connect_device, h1, h2, waitConnected_no_pair]
  · intro k hk hc hp
    exact waitConnected_first_success env.checks 5 0 k hk (by simpa using hc)
      (fun j hj => by simpa using hp j hj)

/-- Concrete environment for the C6 witness: paired device, the third
wait check reports connected. -/
def envRetry : BtEnv :=
  { connectedNow := false, paired := true, pairOk := false,
    checks := fun i => decide (i = 2) }

/-- Witness for claim C6: no pairing side effect on a paired device and
the wait loop stops right after its first successful check. -/
theorem connect_device_pair_then_retry_witness :
    Act.pairSeq ∉ (connect_device envRetry).2
  ∧ (waitConnected envRetry.checks 0 5).2.length = 2 * 2 + 3 :=
  ⟨(connect_device_pair_then_retry envRetry).2.2.2.1 rfl rfl,
   (connect_device_pair_then_retry envRetry).2.2.2.2 2 (by decide) (by decide)
     (by decide)⟩

/-! ## Claim C8 -/

/-- The playback block leaves the re-anchor bookkeeping untouched. -/
theorem playingBlock_reanchor_fields (pn : String) (cache : List (String × String))
    (now : Nat) (l : String) (st : Status) :
    (playingBlock pn cache now l st).reanchor_count = st.reanchor_count
  ∧ (playingBlock pn cache now l st).reanchoring = st.reanchoring
  ∧ (playingBlock pn cache now l st).last_sync_error_ms = st.last_sync_error_ms := by
  simp only [playingBlock]
  split_ifs <;> simp

/-- The audio format block leaves the re-anchor bookkeeping untouched. -/
theorem formatBlock_reanchor_fields (pn l : String) (st : Status)
    (cache : List (String × String)) :
    (formatBlock pn l st cache).1.reanchor_count = st.reanchor_count
  ∧ (formatBlock pn l st cache).1.reanchoring = st.reanchoring
  ∧ (formatBlock pn l st cache).1.last_sync_error_ms = st.last_sync_error_ms := by
  simp only [formatBlock]
  split_ifs <;> simp

/-- The server connection block leaves the re-anchor bookkeeping untouched. -/
theorem serverBlock_reanchor_fields (now : Nat) (l : String) (st : Status) :
    (serverBlock now l st).reanchor_count = st.reanchor_count
  ∧ (serverBlock now l st).reanchoring = st.reanchoring
  ∧ (serverBlock now l st).last_sync_error_ms = st.last_sync_error_ms := by
  simp only [serverBlock]
  split_ifs <;> simp

/-- The volume block leaves the re-anchor bookkeeping untouched. -/
theorem volumeBlock_reanchor_fields (sink : Option String) (l : String) (st : Status) :
    (volumeBlock sink l st).reanchor_count = st.reanchor_count
  ∧ (volumeBlock sink l st).reanchoring = st.reanchoring
  ∧ (volumeBlock sink l st).last_sync_error_ms = st.last_sync_error_ms := by
  simp only [volumeBlock]
  split_ifs <;> simp

/-- The re-anchor block reads only the re-anchor bookkeeping of its
input, so two inputs agreeing on those fields produce agreeing outputs. -/
theorem reanchorBlock_congr (l : String) (st st2 : Status)
    (h1 : st.reanchor_count = st2.reanchor_count)
    (h2 : st.reanchoring = st2.reanchoring)
    (h3 : st.last_sync_error_ms = st2.last_sync_error_ms) :
    (reanchorBlock l st).reanchor_count = (reanchorBlock l st2).reanchor_count
  ∧ (reanchorBlock l st).reanchoring = (reanchorBlock l st2).reanchoring
  ∧ (reanchorBlock l st).last_sync_error_ms = (reanchorBlock l st2).last_sync_error_ms := by
  rcases hs : syncErrorSearch l.data with _ | tok <;>
    simp only [reanchorBlock, hs] <;> split_ifs <;> simp [h1, h2, h3]

/-- The re-anchor bookkeeping after one processed line is exactly what
the re-anchor block computes from the pre-line status. -/
theorem processLine_reanchor (pn : String) (sink : Option String) (now : Nat)
    (ms : MOState) (raw : String) :
    (processLine pn sink now ms raw).status.reanchor_count
      = (reanchorBlock (pyStrip raw) ms.status).reanchor_count
  ∧ (processLine pn sink now ms raw).status.reanchoring
      = (reanchorBlock (pyStrip raw) ms.status).reanchoring
  ∧ (processLine pn sink now ms raw).status.last_sync_error_ms
      = (reanchorBlock (pyStrip raw) ms.status).last_sync_error_ms := by
  have hplay := playingBlock_reanchor_fields pn ms.cache now (pyStrip raw) ms.status
  have hfmt := formatBlock_reanchor_fields pn (pyStrip raw)
      (playingBlock pn ms.cache now (pyStrip raw) ms.status) ms.cache
  have hcg := reanchorBlock_congr (pyStrip raw)
      (formatBlock pn (pyStrip raw) (playingBlock pn ms.cache now (pyStrip raw) ms.status) ms.cache).1
      ms.status (hfmt.1.trans hplay.1) (hfmt.2.1.trans hplay.2.1)
      (hfmt.2.2.trans hplay.2.2)
  have hserv := serverBlock_reanchor_fields now (pyStrip raw)
      (reanchorBlock (pyStrip raw)
        (formatBlock pn (pyStrip raw) (playingBlock pn ms.cache now (pyStrip raw) ms.status) ms.cache).1)
  have hvol := volumeBlock_reanchor_fields sink (pyStrip raw)
      (serverBlock now (pyStrip raw)
        (reanchorBlock (pyStrip raw)
          (formatBlock pn (pyStrip raw) (playingBlock pn ms.cache now (pyStrip raw) ms.status) ms.cache).1))
  simp only [processLine]
  exact ⟨(hvol.1.trans hserv.1).trans hcg.1,
         (hvol.2.1.trans hserv.2.1).trans hcg.2.1,
         (hvol.2.2.trans hserv.2.2).trans hcg.2.2⟩

/-- Two output lines of a malfunctioning player: a sync re-anchor event
followed by a codec-style playback start line. -/
def burstLines : List String :=
  ["Sync error 503.6 ms too large; re-anchoring",
   "INFO:aiosendspin.client.client:Stream started with codec flac"]

/-- A re-anchor line whose captured token has two dots, so the Python
float conversion of the capture raises. -/
def oddTokenLine : String := "Sync error 1.2.3 ms; re-anchoring"

/-- Claim C8 counterexample. First: after a re-anchor event, a
playback-start line announcing the codec sets the playing flag, yet the
transient re-anchoring flag is not cleared by it, because the clearing
branch only fires on the uppercase Stream STARTED marker (the magnitude
was extracted and the counter incremented, so it is the clearing clause
that fails there). Second: on a re-anchor line whose captured token is
not a parseable number, the raised float conversion aborts the whole
update, so the counter is not incremented and the flag not set, against
the claim that every re-anchor line increments and sets them. -/
theorem reanchor_flag_survives_codec_start :
    (read_until_eof true "Player" none 0 initialMOState burstLines).status.playing = true
  ∧ (read_until_eof true "Player" none 0 initialMOState burstLines).status.reanchoring = true
  ∧ (read_until_eof true "Player" none 0 initialMOState burstLines).status.reanchor_count = 1
  ∧ (read_until_eof true "Player" none 0 initialMOState burstLines).status.last_sync_error_ms
      = some "503.6"
  ∧ (processLine "Player" none 0 initialMOState oddTokenLine).status.reanchor_count = 0
  ∧ (processLine "Player" none 0 initialMOState oddTokenLine).status.reanchoring = false := by
  decide

/-- Claim C8 amended: on a re-anchor line the consumer extracts the
numeric sync-error magnitude when the regex captures a parseable token,
increments the counter by one and sets the transient flag; a captured
but unparseable token aborts the whole update. The flag is cleared on
the next line containing the uppercase Stream STARTED marker that is not
itself a re-anchor line, and is left untouched by every other line,
including codec-style playback starts. -/
theorem reanchor_line_updates (pn : String) (sink : Option String) (now : Nat)
    (ms : MOState) (raw : String) :
    (containsSub (pyStrip raw) "re-anchor" = true →
       (∀ tok, syncErrorSearch (pyStrip raw).data = some tok → floatOk tok = true →
          (processLine pn sink now ms raw).status.reanchor_count
            = ms.status.reanchor_count + 1
        ∧ (processLine pn sink now ms raw).status.reanchoring = true
        ∧ (processLine pn sink now ms raw).status.last_sync_error_ms = some tok)
     ∧ (syncErrorSearch (pyStrip raw).data = none →
          (processLine pn sink now ms raw).status.reanchor_count
            = ms.status.reanchor_count + 1
        ∧ (processLine pn sink now ms raw).status.reanchoring = true)
     ∧ (∀ tok, syncErrorSearch (pyStrip raw).data = some tok → floatOk tok = false →
          (processLine pn sink now ms raw).status.reanchor_count
            = ms.status.reanchor_count
        ∧ (processLine pn sink now ms raw).status.reanchoring
            = ms.status.reanchoring))
  ∧ (containsSub (pyStrip raw) "re-anchor" = false →
     containsSub (pyStrip raw) "re-anchoring" = false →
     containsSub (pyStrip raw) "Stream STARTED" = true →
       (processLine pn sink now ms raw).status.reanchoring = false)
  ∧ (containsSub (pyStrip raw) "re-anchor" = false →
     containsSub (pyStrip raw) "re-anchoring" = false →
     containsSub (pyStrip raw) "Stream STARTED" = false →
       (processLine pn sink now ms raw).status.reanchoring
         = ms.status.reanchoring) := by
  have hpr := processLine_reanchor pn sink now ms raw
  refine ⟨?_, ?_, ?_⟩
  · intro hre
    refine ⟨?_, ?_, ?_⟩
    · intro tok hs hfl
      refine ⟨?_, ?_, ?_⟩
      · rw [hpr.1]
        simp [reanchorBlock, hre, hs, hfl]
      · rw [hpr.2.1]
        simp [reanchorBlock, hre, hs, hfl]
      · rw [hpr.2.2]
        simp [reanchorBlock, hre, hs, hfl]
    · intro hs
      refine ⟨?_, ?_⟩
      · rw [hpr.1]
        simp [reanchorBlock, hre, hs]
      · rw [hpr.2.1]
        simp [reanchorBlock, hre, hs]
    · intro tok hs hfl
      refine ⟨?_, ?_⟩
      · rw [hpr.1]
        simp [reanchorBlock, hre, hs, hfl]
      · rw [hpr.2.1]
        simp [reanchorBlock, hre, hs, hfl]
  · intro hre hreing hst
    rw [hpr.2.1]
    simp [reanchorBlock, hre, hreing, hst]
  · intro hre hreing hst
    rw [hpr.2.1]
    simp [reanchorBlock, hre, hreing, hst]

/-- A concrete re-anchor line with an extractable magnitude. -/
def reanchorLine : String := "Sync error 503.6 ms too large; re-anchoring"

/-- Witness for the amended claim C8 at a concrete re-anchor line. -/
theorem reanchor_line_updates_witness :
    (processLine "P" none 0 initialMOState reanchorLine).status.reanchor_count
      = initialMOState.status.reanchor_count + 1
  ∧ (processLine "P" none 0 initialMOState reanchorLine).status.reanchoring = true
  ∧ (processLine "P" none 0 initialMOState reanchorLine).status.last_sync_error_ms
      = some "503.6" :=
  ((reanchor_line_updates "P" none 0 initialMOState reanchorLine).1
    (by decide)).1 "503.6" (by decide) (by decide)

/-! ## Claim C9 -/

/-- Looking up a volume right after saving it under the same MAC returns
the saved value. -/
theorem lookupVolume_saveVolume (cfg : Cfg) (mac : String) (v : Int) :
    lookupVolume (saveVolume cfg mac v) mac = some v := by
  simp [lookupVolume, saveVolume, List.find?]

/-- Claim C9: the volume endpoint clamps the requested value into zero to
one hundred; on a successful pactl call for a client with a recorded
sink, the status read next reflects the clamped volume, the value is
persisted in LAST_VOLUMES under the MAC of the client, and the restore
step of a later audio configuration with the same MAC (as after a
restart) reads back exactly that volume into the status. -/
theorem set_volume_clamped_reflected_persisted (pactlOk ce restoreOk : Bool)
    (cfg : Cfg) (c : WebClient) (vIn : Int) (mac : String) (st : Status)
    (hsink : c.bluetooth_sink_name.isSome = true)
    (hok : pactlOk = true) (hce : ce = true)
    (hmac : c.mac_address = some mac) (hres : restoreOk = true) :
    (0 ≤ clampVolume vIn ∧ clampVolume vIn ≤ 100)
  ∧ (set_volume_apply pactlOk ce cfg c (clampVolume vIn)).1.status.volume
      = clampVolume vIn
  ∧ (set_volume_apply pactlOk ce cfg c (clampVolume vIn)).2.2 = some true
  ∧ lookupVolume (set_volume_apply pactlOk ce cfg c (clampVolume vIn)).2.1 mac
      = some (clampVolume vIn)
  ∧ (restore_volume restoreOk true
       (set_volume_apply pactlOk ce cfg c (clampVolume vIn)).2.1 mac st).volume
      = clampVolume vIn := by
  obtain ⟨sink, hs⟩ := Option.isSome_iff_exists.1 hsink
  subst hok; subst hce; subst hres
  have hb1 : 0 ≤ clampVolume vIn := le_max_left 0 (min 100 vIn)
  have hb2 : clampVolume vIn ≤ 100 := by
    have : min 100 vIn ≤ 100 := min_le_left 100 vIn
    exact max_le (by norm_num) this
  have happ : set_volume_apply true true cfg c (clampVolume vIn) =
      ({ c with status := { c.status with volume := clampVolume vIn } },
       saveVolume cfg mac (clampVolume vIn), some true) := by
    simp [set_volume_apply, hs, hmac]
  refine ⟨⟨hb1, hb2⟩, ?_, ?_, ?_, ?_⟩
  · rw [happ]
  · rw [happ]
  · rw [happ]
    exact lookupVolume_saveVolume cfg mac (clampVolume vIn)
  · rw [happ]
    simp [restore_volume, lookupVolume_saveVolume, hb1, hb2]

/-- Concrete client for the C9 witness. -/
def volClient : WebClient :=
  { player_name := "Sendspin Player"
    bluetooth_sink_name := some "bluez_sink.AA_BB_CC_DD_EE_FF.a2dp_sink"
    mac_address := some "AA:BB:CC:DD:EE:FF"
    status := initialStatus }

/-- Witness for claim C9: an out-of-range request of one hundred and
fifty is clamped to one hundred, reflected in the status, persisted and
restored. -/
theorem set_volume_clamped_reflected_persisted_witness :
    (0 ≤ clampVolume 150 ∧ clampVolume 150 ≤ 100)
  ∧ (set_volume_apply true true ⟨[], none⟩ volClient (clampVolume 150)).1.status.volume
      = clampVolume 150
  ∧ (set_volume_apply true true ⟨[], none⟩ volClient (clampVolume 150)).2.2 = some true
  ∧ lookupVolume (set_volume_apply true true ⟨[], none⟩ volClient
      (clampVolume 150)).2.1 "AA:BB:CC:DD:EE:FF" = some (clampVolume 150)
  ∧ (restore_volume true true
       (set_volume_apply true true ⟨[], none⟩ volClient (clampVolume 150)).2.1
       "AA:BB:CC:DD:EE:FF" initialStatus).volume = clampVolume 150 :=
  set_volume_clamped_reflected_persisted true true true ⟨[], none⟩ volClient 150
    "AA:BB:CC:DD:EE:FF" initialStatus (by decide) rfl rfl (by decide) rfl

/-! ## Claim C10 -/

/-- Claim C10: when the supplied player name matches no configured client
(including the omitted case, modelled as none), the Bluetooth command
endpoints select the first configured client instead of rejecting; the
management endpoint succeeds whenever any client exists, the reconnect
and pair endpoints succeed whenever the selected client has a Bluetooth
manager, and error responses arise only with no clients at all or, for
reconnect and pair, a selected client without a Bluetooth manager. -/
theorem bt_command_first_client_fallback (q : Option String) (cs : List WClient)
    (e : Bool) (hmiss : ∀ c ∈ cs, (q == some c.player_name) = false) :
    selectClient q cs = cs.head?
  ∧ (cs ≠ [] → api_bt_management q (some e) cs = ApiResult.ok)
  ∧ (cs = [] → api_bt_reconnect q cs = ApiResult.errNoBtManager
      ∧ api_bt_pair q cs = ApiResult.errNoBtManager
      ∧ api_bt_management q (some e) cs = ApiResult.errNoClient)
  ∧ (∀ c, selectClient q cs = some c → c.hasBtManager = true →
      api_bt_reconnect q cs = ApiResult.ok ∧ api_bt_pair q cs = ApiResult.ok)
  ∧ (∀ c, selectClient q cs = some c → c.hasBtManager = false →
      api_bt_reconnect q cs = ApiResult.errNoBtManager
      ∧ api_bt_pair q cs = ApiResult.errNoBtManager) := by
  have hfind : cs.find? (fun c => q == some c.player_name) = none := by
    rw [List.find?_eq_none]
    intro c hc
    simp [hmiss c hc]
  have hsel : selectClient q cs = cs.head? := by
    simp [selectClient, hfind]
  refine ⟨hsel, ?_, ?_, ?_, ?_⟩
  · intro hne
    cases cs with
    | nil => exact absurd rfl hne
    | cons a l => simp [api_bt_management, hsel]
  · intro hnil
    subst hnil
    refine ⟨?_, ?_, ?_⟩ <;> simp [api_bt_reconnect, api_bt_pair, api_bt_management, hsel]
  · intro c hc hbt
    rw [api_bt_reconnect, api_bt_pair, hc]
    simp [hbt]
  · intro c hc hbt
    rw [api_bt_reconnect, api_bt_pair, hc]
    simp [hbt]

/-- Two configured clients for the C10 witness. -/
def twoClients : List WClient :=
  [{ player_name := "Kitchen", hasBtManager := true },
   { player_name := "Bedroom", hasBtManager := false }]

/-- Witness for claim C10: a request naming an unknown player falls back
to the first client and all three endpoints accept it. -/
theorem bt_command_first_client_fallback_witness :
    selectClient (some "Garage") twoClients = twoClients.head?
  ∧ api_bt_management (some "Garage") (some false) twoClients = ApiResult.ok
  ∧ (api_bt_reconnect (some "Garage") twoClients = ApiResult.ok
     ∧ api_bt_pair (some "Garage") twoClients = ApiResult.ok) :=
  ⟨(bt_command_first_client_fallback (some "Garage") twoClients false (by decide)).1,
   (bt_command_first_client_fallback (some "Garage") twoClients false (by decide)).2.1
     (by decide),
   (bt_command_first_client_fallback (some "Garage") twoClients false
     (by decide)).2.2.2.1 { player_name := "Kitchen", hasBtManager := true }
     (by decide) rfl⟩
